/-
Verification of the AES-CMAC core (src/crypto/cmac.js) against its
natural-language specification.

The JavaScript source is shallowly embedded: byte buffers (Uint8Array)
become `List Nat` with entries reduced mod 256 wherever the source stores
into a typed array; the in-place loops of `rightXorMut` and `mul2` become
index-indexed rewrites of the list (each loop iteration reads only
positions it has not yet written, so mapping over the original list is
exact, including the JavaScript semantics of dropped out-of-bounds writes
and zero-valued out-of-bounds reads); the external AES-CBC-zero-IV
capability is a parameter `E : List Nat → List Nat` encrypting one block,
chained by an explicit CBC definition. A reference AES-128 (computed from
the GF(2^8) field algebra) instantiates the capability for the RFC 4493
known-answer vectors.
-/
import Mathlib

set_option maxHeartbeats 1000000
set_option maxRecDepth 100000

/-- Block length of the underlying cipher, in bytes (`blockLength` in the source). -/
def blockLength : Nat := 16

/-- The all-zero 16-byte block (`zeroBlock` in the source). -/
def zeroBlock : List Nat := List.replicate blockLength 0

/-- Embedding of `rightXorMut(data, padding)`: the loop
`for i in [0,16): data[i + offset] ^= padding[i]` with
`offset = data.length - 16`.  Position `j` of `data` is written exactly
when some `i` in `[0,16)` has `i + offset = j`, i.e. when
`data.length ≤ j + 16`; the padding byte used is then
`padding[j + 16 - data.length]`.  Writes at negative indices of a
`Uint8Array` are dropped and reads of `padding` stay in range, which the
index arithmetic reproduces.  The store into the `Uint8Array` truncates
mod 256. -/
def rightXorMut (data padding : List Nat) : List Nat :=
  data.mapIdx fun j b =>
    if data.length ≤ j + blockLength then
      (b ^^^ padding.getD (j + blockLength - data.length) 0) % 256
    else b

/-- Embedding of `mul2(data)`: saves `t = data[0] & 0x80`, then for
`i in [0,15)` sets `data[i] = (data[i] << 1) ^ ((data[i+1] & 0x80) ? 1 : 0)`
and finally `data[15] = (data[15] << 1) ^ (t ? 0x87 : 0)`, each store
truncated mod 256 by the `Uint8Array`.  Iteration `i` reads `data[i]` and
`data[i+1]` before either is overwritten, so the rewrite maps over the
original list. -/
def mul2 (data : List Nat) : List Nat :=
  data.mapIdx fun i b =>
    if i < 15 then
      ((b <<< 1) ^^^ (if data.getD (i + 1) 0 &&& 0x80 ≠ 0 then 1 else 0)) % 256
    else if i = 15 then
      ((b <<< 1) ^^^ (if data.getD 0 0 &&& 0x80 ≠ 0 then 0x87 else 0)) % 256
    else b

/-- Embedding of `pad(data, padding, padding2)`.  The source tests
`data.length % blockLength === 0` (note: this is satisfied by the empty
message), XORing `padding` into the tail of `data` itself in that branch;
otherwise it allocates a zero-filled buffer of the next multiple of 16,
copies `data`, writes `0x80` right after it and XORs `padding2` into the
tail. -/
def pad (data padding padding2 : List Nat) : List Nat :=
  if data.length % blockLength = 0 then
    rightXorMut data padding
  else
    rightXorMut
      (data ++ 0x80 :: List.replicate (blockLength - data.length % blockLength - 1) 0)
      padding2

/-- Buffer states after `pad(data, padding, padding2)` returns, as the
triple (data, padding, padding2).  In the aligned branch the source hands
`data` itself to `rightXorMut`, which mutates it in place; `padding` and
`padding2` are only ever read.  In the other branch the source copies
`data` into a freshly allocated buffer, leaving all three arguments
untouched. -/
def padEffects (data padding padding2 : List Nat) : List Nat × List Nat × List Nat :=
  if data.length % blockLength = 0 then (rightXorMut data padding, padding, padding2)
  else (data, padding, padding2)

/-- XOR of two 16-byte blocks, the chaining step of CBC. -/
def xorBlock (a b : List Nat) : List Nat :=
  List.zipWith (fun x y => (x ^^^ y) % 256) a b

/-- CBC chaining of `n` blocks of `pt` through the block cipher `E`,
with previous ciphertext block `prev`. -/
def cbcBlocks (E : List Nat → List Nat) : Nat → List Nat → List Nat → List Nat
  | 0, _, _ => []
  | n + 1, prev, pt =>
    let c := E (xorBlock prev (pt.take blockLength))
    c ++ cbcBlocks E n c (pt.drop blockLength)

/-- The external capability `encryptCbcZeroIv` consumed by the core:
standard CBC with all-zero IV over a block-aligned plaintext (all three
backends in the source agree with this on block-aligned input, the only
input the core produces). -/
def cbcEncrypt (E : List Nat → List Nat) (pt : List Nat) : List Nat :=
  cbcBlocks E (pt.length / blockLength) zeroBlock pt

/-- Subkey K1 (`padding` in the source): `mul2(await cbc(zeroBlock))`. -/
def cmacK1 (E : List Nat → List Nat) : List Nat :=
  mul2 (cbcEncrypt E zeroBlock)

/-- Subkey K2 (`padding2` in the source): `mul2(padding.slice())`, i.e.
`mul2` applied to a copy of K1. -/
def cmacK2 (E : List Nat → List Nat) : List Nat :=
  mul2 (cmacK1 E)

/-- Embedding of `.subarray(-blockLength)`: the last 16 bytes of a buffer
(the whole buffer when it is shorter). -/
def lastBlock (ct : List Nat) : List Nat :=
  ct.drop (ct.length - blockLength)

/-- The returned MAC function:
`(await cbc(pad(data, padding, padding2))).subarray(-blockLength)`. -/
def cmacTag (E : List Nat → List Nat) (data : List Nat) : List Nat :=
  lastBlock (cbcEncrypt E (pad data (cmacK1 E) (cmacK2 E)))

/-- The state of the message buffer owned by the caller after
`MacFunction(data)` returns: `pad` receives the caller's buffer directly. -/
def cmacMsgAfter (E : List Nat → List Nat) (data : List Nat) : List Nat :=
  (padEffects data (cmacK1 E) (cmacK2 E)).1

/-- Big-endian value of a byte string, used to state the GF(2^128)
doubling property. -/
def beToNat (l : List Nat) : Nat :=
  l.foldl (fun acc b => acc * 256 + b) 0

/-- GF(2^8) doubling (`xtime`), used by the reference AES. -/
def xtime (a : Nat) : Nat := ((2 * a) ^^^ (if 128 ≤ a then 0x1b else 0)) % 256

/-- Eight shift-and-add steps of GF(2^8) multiplication. -/
def gfMulAux : Nat → Nat → Nat → Nat → Nat
  | 0, _, _, acc => acc
  | n + 1, a, b, acc => gfMulAux n (xtime a) (b / 2) (if b % 2 = 1 then acc ^^^ a else acc)

/-- GF(2^8) multiplication modulo x^8 + x^4 + x^3 + x + 1. -/
def gfMul (a b : Nat) : Nat := gfMulAux 8 a b 0

/-- GF(2^8) inverse as a^254 (and 0 for 0), via repeated squaring. -/
def gfInv (a : Nat) : Nat :=
  let s1 := gfMul a a
  let s2 := gfMul s1 s1
  let s3 := gfMul s2 s2
  let s4 := gfMul s3 s3
  let s5 := gfMul s4 s4
  let s6 := gfMul s5 s5
  let s7 := gfMul s6 s6
  gfMul s7 (gfMul s6 (gfMul s5 (gfMul s4 (gfMul s3 (gfMul s2 s1)))))

/-- Left rotation of a byte. -/
def rotl8 (x n : Nat) : Nat := ((x <<< n) ||| (x >>> (8 - n))) % 256

/-- The AES S-box: multiplicative inverse followed by the affine map. -/
def sbox (b : Nat) : Nat :=
  let i := gfInv b
  (i ^^^ rotl8 i 1 ^^^ rotl8 i 2 ^^^ rotl8 i 3 ^^^ rotl8 i 4) ^^^ 0x63

/-- One AES-128 key-schedule round: from a 16-byte round key and a round
constant to the next round key. -/
def nextRoundKey (rc : Nat) (k : List Nat) : List Nat :=
  let t := [sbox (k.getD 13 0) ^^^ rc, sbox (k.getD 14 0), sbox (k.getD 15 0), sbox (k.getD 12 0)]
  let w4 := List.zipWith (· ^^^ ·) (k.take 4) t
  let w5 := List.zipWith (· ^^^ ·) ((k.drop 4).take 4) w4
  let w6 := List.zipWith (· ^^^ ·) ((k.drop 8).take 4) w5
  let w7 := List.zipWith (· ^^^ ·) (k.drop 12) w6
  w4 ++ w5 ++ w6 ++ w7

/-- Iterate the key schedule over the round constants. -/
def expandFrom (k : List Nat) : List Nat → List (List Nat)
  | [] => []
  | rc :: rcs =>
    let k2 := nextRoundKey rc k
    k2 :: expandFrom k2 rcs

/-- The eleven AES-128 round keys. -/
def roundKeys (key : List Nat) : List (List Nat) :=
  key :: expandFrom key [0x01, 0x02, 0x04, 0x08, 0x10, 0x20, 0x40, 0x80, 0x1b, 0x36]

/-- AES SubBytes. -/
def subBytes (s : List Nat) : List Nat := s.map sbox

/-- AES ShiftRows on the flat column-major 16-byte state. -/
def shiftRows (s : List Nat) : List Nat :=
  [s.getD 0 0, s.getD 5 0, s.getD 10 0, s.getD 15 0,
   s.getD 4 0, s.getD 9 0, s.getD 14 0, s.getD 3 0,
   s.getD 8 0, s.getD 13 0, s.getD 2 0, s.getD 7 0,
   s.getD 12 0, s.getD 1 0, s.getD 6 0, s.getD 11 0]

/-- AES MixColumns on one column. -/
def mixCol (a b c d : Nat) : List Nat :=
  [xtime a ^^^ (xtime b ^^^ b) ^^^ c ^^^ d,
   a ^^^ xtime b ^^^ (xtime c ^^^ c) ^^^ d,
   a ^^^ b ^^^ xtime c ^^^ (xtime d ^^^ d),
   (xtime a ^^^ a) ^^^ b ^^^ c ^^^ xtime d]

/-- AES MixColumns on the full state. -/
def mixColumns (s : List Nat) : List Nat :=
  match s with
  | [a0, a1, a2, a3, b0, b1, b2, b3, c0, c1, c2, c3, d0, d1, d2, d3] =>
    mixCol a0 a1 a2 a3 ++ mixCol b0 b1 b2 b3 ++ mixCol c0 c1 c2 c3 ++ mixCol d0 d1 d2 d3
  | _ => s

/-- AES AddRoundKey. -/
def addRoundKey (s k : List Nat) : List Nat := List.zipWith (· ^^^ ·) s k

/-- The AES round structure: full rounds, then a final round without
MixColumns. -/
def aesRounds (s : List Nat) : List (List Nat) → List Nat
  | [] => s
  | [k] => addRoundKey (shiftRows (subBytes s)) k
  | k :: ks => aesRounds (addRoundKey (mixColumns (shiftRows (subBytes s))) k) ks

/-- Reference AES-128 single-block encryption (checked against the
FIPS-197 appendix vector and the RFC 4493 subkey values). -/
def aesEncryptBlock (key block : List Nat) : List Nat :=
  match roundKeys key with
  | [] => block
  | k0 :: ks => aesRounds (addRoundKey block k0) ks

/-- The RFC 4493 AES-128 key 2b7e151628aed2a6abf7158809cf4f3c. -/
def rfcKey : List Nat :=
  [0x2b, 0x7e, 0x15, 0x16, 0x28, 0xae, 0xd2, 0xa6, 0xab, 0xf7, 0x15, 0x88, 0x09, 0xcf, 0x4f, 0x3c]

/-- The 16-byte RFC 4493 test message 6bc1bee22e409f96e93d7e117393172a. -/
def rfcMsg16 : List Nat :=
  [0x6b, 0xc1, 0xbe, 0xe2, 0x2e, 0x40, 0x9f, 0x96, 0xe9, 0x3d, 0x7e, 0x11, 0x73, 0x93, 0x17, 0x2a]

/-- The RFC 4493 tag for the empty message, bb1d6929e95937287fa37d129b756746. -/
def rfcTagEmpty : List Nat :=
  [0xbb, 0x1d, 0x69, 0x29, 0xe9, 0x59, 0x37, 0x28, 0x7f, 0xa3, 0x7d, 0x12, 0x9b, 0x75, 0x67, 0x46]

/-- The RFC 4493 tag for `rfcMsg16`, 070a16b46b4d4144f79bdd9dd04a287c. -/
def rfcTag16 : List Nat :=
  [0x07, 0x0a, 0x16, 0xb4, 0x6b, 0x4d, 0x41, 0x44, 0xf7, 0x9b, 0xdd, 0x9d, 0xd0, 0x4a, 0x28, 0x7c]

/-- Modelled from the spec: the external block-cipher capability
(`encryptCbcZeroIv`) lives outside this repository (WebCrypto, Node
crypto, or asmcrypto.js); per spec section 6 it accepts keys of exactly
16, 24, or 32 bytes and raises `InvalidKeyLength` otherwise.  `E` maps an
accepted key to its one-block encryption function. -/
def providerCbc (E : List Nat → List Nat → List Nat) (key pt : List Nat) :
    Except String (List Nat) :=
  if key.length = 16 ∨ key.length = 24 ∨ key.length = 32 then .ok (cbcEncrypt (E key) pt)
  else .error "InvalidKeyLength"

/-- Embedding of `CMAC(key)` (the `prepare` operation) over the
fallible provider: awaits `cbc(zeroBlock)` and computes the two cached
subkeys; returns the closure state (K1, K2). -/
def CMACprepare (E : List Nat → List Nat → List Nat) (key : List Nat) :
    Except String (List Nat × List Nat) :=
  match providerCbc E key zeroBlock with
  | .error e => .error e
  | .ok L => .ok (mul2 L, mul2 (mul2 L))

/-- Embedding of the returned MAC function over the fallible provider:
pads with the cached subkeys, awaits the provider, keeps the last block. -/
def CMACinvoke (E : List Nat → List Nat → List Nat) (key : List Nat)
    (subkeys : List Nat × List Nat) (data : List Nat) : Except String (List Nat) :=
  match providerCbc E key (pad data subkeys.1 subkeys.2) with
  | .error e => .error e
  | .ok ct => .ok (lastBlock ct)

theorem rightXorMut_nil (p : List Nat) : rightXorMut [] p = [] := rfl

theorem pad_nil (p p2 : List Nat) : pad [] p p2 = [] := rfl

theorem length_rightXorMut (d p : List Nat) : (rightXorMut d p).length = d.length := by
  simp [rightXorMut]

theorem cbcEncrypt_nil (E : List Nat → List Nat) : cbcEncrypt E [] = [] := rfl

theorem cbcEncrypt_zeroBlock (E : List Nat → List Nat) :
    cbcEncrypt E zeroBlock = E zeroBlock := by
  have h1 : zeroBlock.length / blockLength = 1 := by decide
  rw [cbcEncrypt, h1]
  show E (xorBlock zeroBlock (zeroBlock.take blockLength)) ++
      cbcBlocks E 0 (E (xorBlock zeroBlock (zeroBlock.take blockLength)))
        (zeroBlock.drop blockLength) = E zeroBlock
  rw [show xorBlock zeroBlock (zeroBlock.take blockLength) = zeroBlock from by decide]
  simp [cbcBlocks]

/-- Claim C2: the source routes the empty message through the aligned
branch of `pad` (because `0 % 16 === 0`), where the sixteen out-of-range
writes of `rightXorMut` are all dropped, so `pad` of the empty message is
the empty buffer and not the claimed single block `0x80 || 0^15` XORed
with K2. -/
theorem claim2_pad_empty_takes_aligned_branch (p p2 : List Nat) :
    pad [] p p2 = [] ∧ (pad [] p p2).length ≠ blockLength := by
  refine ⟨rfl, ?_⟩
  rw [pad_nil]
  decide

/-- Claim C4: at the empty message the MAC function returns the empty
buffer, not a 16-byte tag: `pad` leaves the empty message empty, CBC of
an empty plaintext is empty, and `subarray(-16)` of an empty buffer is
empty — this holds for every block-cipher capability `E`. -/
theorem claim4_tag_of_empty_message_is_empty (E : List Nat → List Nat) :
    cmacTag E [] = [] ∧ (cmacTag E []).length ≠ blockLength := by
  have h : cmacTag E [] = [] := by
    rw [cmacTag, show pad [] (cmacK1 E) (cmacK2 E) = [] from rfl]
    rfl
  exact ⟨h, by rw [h]; decide⟩

/-- Claim C5: the cached subkeys are K1 = double(E_K(zeroBlock)) and
K2 = double(K1); encrypting the single zero block under CBC with zero IV
is exactly one raw block encryption, and the MAC function is a function
of the pair (K1, K2) alone (the source computes them once in `CMAC` and
the returned closure only reads them). -/
theorem claim5_subkey_derivation (E : List Nat → List Nat) :
    cmacK1 E = mul2 (E zeroBlock) ∧ cmacK2 E = mul2 (mul2 (E zeroBlock)) ∧
    ∀ data, cmacTag E data = lastBlock (cbcEncrypt E (pad data (cmacK1 E) (cmacK2 E))) := by
  refine ⟨?_, ?_, fun data => rfl⟩
  · rw [cmacK1, cbcEncrypt_zeroBlock]
  · rw [cmacK2, cmacK1, cbcEncrypt_zeroBlock]

/-- Claim C10: the buffer handed to the external cipher is always
block-aligned: `pad` keeps an aligned length unchanged (the empty message
yields the zero-length, zero-block buffer) and extends any other length
to the next multiple of 16. -/
theorem claim10_padded_buffer_always_block_aligned (data p p2 : List Nat) :
    (pad data p p2).length % blockLength = 0 ∧
    (pad data p p2).length =
      (if data.length % blockLength = 0 then data.length
       else data.length + (blockLength - data.length % blockLength)) ∧
    pad [] p p2 = [] := by
  refine ⟨?_, ?_, rfl⟩ <;> rw [pad] <;> split <;>
    simp_all [length_rightXorMut, blockLength] <;> omega

/-- Claim C1: under the reference AES-128 with the RFC 4493 key, the
code returns the empty buffer for the empty message — not the RFC tag
`bb1d6929e95937287fa37d129b756746` — while the 16-byte vector does
produce the claimed tag `070a16b46b4d4144f79bdd9dd04a287c`. -/
theorem claim1_rfc_vectors_empty_fails_sixteen_holds :
    cmacTag (aesEncryptBlock rfcKey) [] = [] ∧
    cmacTag (aesEncryptBlock rfcKey) [] ≠ rfcTagEmpty ∧
    cmacTag (aesEncryptBlock rfcKey) rfcMsg16 = rfcTag16 := by
  refine ⟨?e, ?n, ?s⟩
  case e => decide
  case n => decide
  case s => decide

/-- Claim C7 counterexample: with the reference AES-128 under the RFC
key, invoking the MAC function on the 16-byte all-zero message leaves the
caller's message buffer equal to K1 (its last 16 bytes were XORed in
place by the aligned branch of `pad`), not to its original contents. -/
theorem claim7_counterexample_message_buffer_mutated :
    cmacMsgAfter (aesEncryptBlock rfcKey) (List.replicate 16 0) ≠ List.replicate 16 0 := by
  decide

/-- Claim C7 amended: an invocation of the MAC function never changes the
cached subkey buffers K1 and K2, and leaves the caller's message buffer
unchanged when the message length is not a multiple of 16 (that branch
copies into a fresh buffer) and when the message is empty; but a
non-empty block-aligned message is mutated in place (see the
counterexample). -/
theorem claim7_amended_subkeys_and_unaligned_message_preserved
    (E : List Nat → List Nat) (data : List Nat) :
    (padEffects data (cmacK1 E) (cmacK2 E)).2.1 = cmacK1 E ∧
    (padEffects data (cmacK1 E) (cmacK2 E)).2.2 = cmacK2 E ∧
    (data.length % blockLength ≠ 0 → cmacMsgAfter E data = data) ∧
    cmacMsgAfter E [] = [] := by
  refine ⟨?_, ?_, ?_, rfl⟩
  · rw [padEffects]; split <;> rfl
  · rw [padEffects]; split <;> rfl
  · intro h; rw [cmacMsgAfter, padEffects, if_neg h]

theorem claim7_amended_witness :
    cmacMsgAfter (fun b => b) [5] = [5] ∧
    (padEffects [5] (cmacK1 fun b => b) (cmacK2 fun b => b)).2.1 = cmacK1 (fun b => b) := by
  have h := claim7_amended_subkeys_and_unaligned_message_preserved (fun b => b) [5]
  exact ⟨h.2.2.1 (by decide), h.1⟩

/-- Claim C8: `prepare` succeeds exactly for keys of 16, 24 or 32 bytes,
fails with `InvalidKeyLength` for every other length, and once `prepare`
has succeeded a tag computation never raises `InvalidKeyLength` (the
provider is modelled from the spec; the source calls it already during
subkey derivation, so its key validation fires at prepare time). -/
theorem claim8_invalid_key_length_at_prepare_time
    (E : List Nat → List Nat → List Nat) (key : List Nat) :
    ((key.length = 16 ∨ key.length = 24 ∨ key.length = 32) →
        ∃ st, CMACprepare E key = .ok st) ∧
    (key.length ≠ 16 → key.length ≠ 24 → key.length ≠ 32 →
        CMACprepare E key = .error "InvalidKeyLength") ∧
    (∀ st data, (∃ st0, CMACprepare E key = .ok st0) →
        ∃ tag, CMACinvoke E key st data = .ok tag) := by
  refine ⟨?_, ?_, ?_⟩
  · intro hv
    refine ⟨(mul2 (cbcEncrypt (E key) zeroBlock),
      mul2 (mul2 (cbcEncrypt (E key) zeroBlock))), ?_⟩
    rw [CMACprepare, providerCbc, if_pos hv]
  · intro h16 h24 h32
    rw [CMACprepare, providerCbc, if_neg (by tauto)]
  · rintro st data ⟨st0, hok⟩
    by_cases hv : key.length = 16 ∨ key.length = 24 ∨ key.length = 32
    · refine ⟨lastBlock (cbcEncrypt (E key) (pad data st.1 st.2)), ?_⟩
      rw [CMACinvoke, providerCbc, if_pos hv]
    · rw [CMACprepare, providerCbc, if_neg hv] at hok
      exact absurd hok (by simp)

theorem claim8_witness :
    (∃ st, CMACprepare (fun _ _ => zeroBlock) (List.replicate 16 0) = .ok st) ∧
    CMACprepare (fun _ _ => zeroBlock) (List.replicate 10 0) = .error "InvalidKeyLength" ∧
    (∃ tag, CMACinvoke (fun _ _ => zeroBlock) (List.replicate 16 0)
        (zeroBlock, zeroBlock) [1, 2, 3] = .ok tag) := by
  refine ⟨?_, ?_, ?_⟩
  · exact (claim8_invalid_key_length_at_prepare_time (fun _ _ => zeroBlock)
      (List.replicate 16 0)).1 (by decide)
  · exact (claim8_invalid_key_length_at_prepare_time (fun _ _ => zeroBlock)
      (List.replicate 10 0)).2.1 (by decide) (by decide) (by decide)
  · refine (claim8_invalid_key_length_at_prepare_time (fun _ _ => zeroBlock)
      (List.replicate 16 0)).2.2 (zeroBlock, zeroBlock) [1, 2, 3] ?_
    exact (claim8_invalid_key_length_at_prepare_time (fun _ _ => zeroBlock)
      (List.replicate 16 0)).1 (by decide)

theorem mapIdx_xor_zipWith : ∀ (d p : List Nat), d.length ≤ p.length →
    List.mapIdx (fun i b => (b ^^^ p.getD i 0) % 256) d
      = List.zipWith (fun x y => (x ^^^ y) % 256) d p := by
  intro d
  induction d with
  | nil => intro p h; simp
  | cons a d ih =>
    intro p h
    cases p with
    | nil => simp at h
    | cons y p =>
      rw [List.mapIdx_cons, List.zipWith_cons_cons]
      exact congrArg₂ List.cons rfl (ih p (by simpa using h))

theorem rightXorMut_structure (K D p : List Nat) (L : Nat)
    (hD : D.length = blockLength) (hL : L = K.length + D.length)
    (hp : D.length ≤ p.length) :
    List.mapIdx
        (fun j b => if L ≤ j + blockLength then (b ^^^ p.getD (j + blockLength - L) 0) % 256 else b)
        (K ++ D)
      = K ++ List.zipWith (fun x y => (x ^^^ y) % 256) D p := by
  simp only [blockLength] at hD hL ⊢
  rw [List.mapIdx_append]
  congr 1
  · rw [List.mapIdx_eq_iff]
    intro i
    rcases Nat.lt_or_ge i K.length with hi | hi
    · rw [List.getElem?_eq_getElem hi]
      simp only [Option.map_some']
      rw [if_neg (by omega)]
    · rw [List.getElem?_eq_none (by omega)]
      simp
  · have hfun : (fun i => (fun j b =>
        if L ≤ j + 16 then (b ^^^ p.getD (j + 16 - L) 0) % 256 else b) (i + K.length))
        = fun i (b : Nat) => (b ^^^ p.getD i 0) % 256 := by
      funext i b
      simp only []
      rw [if_pos (by omega)]
      have e : i + K.length + 16 - L = i := by omega
      rw [e]
    rw [hfun, mapIdx_xor_zipWith D p (by omega)]

/-- Characterization of `rightXorMut` on inputs of at least one block:
it XORs `padding` (reduced mod 256) into the last 16 bytes of `data` and
leaves everything before untouched. -/
theorem rightXorMut_spec (data p : List Nat) (h16 : blockLength ≤ data.length)
    (hp : blockLength ≤ p.length) :
    rightXorMut data p =
      data.take (data.length - blockLength) ++
        List.zipWith (fun x y => (x ^^^ y) % 256) (data.drop (data.length - blockLength)) p := by
  have hD : (data.drop (data.length - blockLength)).length = blockLength := by
    simp only [blockLength] at *
    simp
    omega
  have h := rightXorMut_structure (data.take (data.length - blockLength))
    (data.drop (data.length - blockLength)) p data.length hD
    (by simp only [blockLength] at *; simp) (by omega)
  rw [List.take_append_drop] at h
  rw [rightXorMut]
  exact h

theorem zipWith_xor_mod_eq (a p : List Nat) (ha : ∀ b ∈ a, b < 256) (hp : ∀ b ∈ p, b < 256) :
    List.zipWith (fun x y => (x ^^^ y) % 256) a p = List.zipWith (fun x y => x ^^^ y) a p := by
  induction a generalizing p with
  | nil => simp
  | cons x a ih =>
    cases p with
    | nil => simp
    | cons y p =>
      rw [List.zipWith_cons_cons, List.zipWith_cons_cons,
        ih p (fun b hb => ha b (List.mem_cons_of_mem x hb))
          (fun b hb => hp b (List.mem_cons_of_mem y hb))]
      congr 1
      exact Nat.mod_eq_of_lt
        (Nat.xor_lt_two_pow (n := 8) (ha x (List.mem_cons_self x a)) (hp y (List.mem_cons_self y p)))

/-- Claim C3: for a non-empty block-aligned message, `pad` returns the
message with only its last 16 bytes XORed with K1 and the length
unchanged; for a message whose length is not a multiple of 16, `pad`
returns the message followed by `0x80` and zero fill up to the next
multiple of 16, with the last 16 bytes of that extended buffer XORed
with K2. -/
theorem claim3_pad_branches (data p p2 : List Nat)
    (hp : p.length = blockLength) (hp2 : p2.length = blockLength)
    (hd : ∀ b ∈ data, b < 256) (hpb : ∀ b ∈ p, b < 256) (hp2b : ∀ b ∈ p2, b < 256) :
    (0 < data.length → data.length % blockLength = 0 →
      pad data p p2 =
        data.take (data.length - blockLength) ++
          List.zipWith (fun x y => x ^^^ y) (data.drop (data.length - blockLength)) p ∧
      (pad data p p2).length = data.length) ∧
    (data.length % blockLength ≠ 0 →
      pad data p p2 =
        (data ++ 0x80 :: List.replicate (blockLength - data.length % blockLength - 1) 0).take
            (data.length + (blockLength - data.length % blockLength) - blockLength) ++
          List.zipWith (fun x y => x ^^^ y)
            ((data ++ 0x80 :: List.replicate (blockLength - data.length % blockLength - 1) 0).drop
              (data.length + (blockLength - data.length % blockLength) - blockLength)) p2 ∧
      (pad data p p2).length = data.length + (blockLength - data.length % blockLength)) := by
  constructor
  · intro hpos hmod
    have h16 : blockLength ≤ data.length := by
      simp only [blockLength] at *
      omega
    constructor
    · rw [pad, if_pos hmod, rightXorMut_spec data p h16 (by omega),
        zipWith_xor_mod_eq _ _ (fun b hb => hd b (List.mem_of_mem_drop hb)) hpb]
    · rw [pad, if_pos hmod, length_rightXorMut]
  · intro hmod
    have hElen : (data ++ 0x80 :: List.replicate (blockLength - data.length % blockLength - 1) 0).length
        = data.length + (blockLength - data.length % blockLength) := by
      simp only [blockLength] at *
      simp
      omega
    have hEb : ∀ b ∈ data ++ 0x80 :: List.replicate (blockLength - data.length % blockLength - 1) 0,
        b < 256 := by
      intro b hb
      rcases List.mem_append.1 hb with h | h
      · exact hd b h
      · rcases List.mem_cons.1 h with h | h
        · omega
        · have := List.eq_of_mem_replicate h
          omega
    constructor
    · rw [pad, if_neg hmod,
        rightXorMut_spec _ p2 (by simp only [blockLength] at *; omega) (by omega), hElen,
        zipWith_xor_mod_eq _ _ (fun b hb => hEb b (List.mem_of_mem_drop hb)) hp2b]
    · rw [pad, if_neg hmod, length_rightXorMut, hElen]

theorem claim3_witness :
    pad (List.replicate 16 7) (List.replicate 16 1) (List.replicate 16 2) = List.replicate 16 6 ∧
    pad [5] (List.replicate 16 1) (List.replicate 16 2) = 7 :: 0x82 :: List.replicate 14 2 := by
  constructor
  · have h := (claim3_pad_branches (List.replicate 16 7) (List.replicate 16 1)
      (List.replicate 16 2) (by decide) (by decide) (by decide) (by decide) (by decide)).1
      (by decide) (by decide)
    rw [h.1]
    decide
  · have h := (claim3_pad_branches [5] (List.replicate 16 1) (List.replicate 16 2)
      (by decide) (by decide) (by decide) (by decide) (by decide)).2 (by decide)
    rw [h.1]
    decide

theorem mul2_explicit (b0 b1 b2 b3 b4 b5 b6 b7 b8 b9 b10 b11 b12 b13 b14 b15 : Nat) :
    mul2 [b0, b1, b2, b3, b4, b5, b6, b7, b8, b9, b10, b11, b12, b13, b14, b15] =
      [((b0 <<< 1) ^^^ (if b1 &&& 128 ≠ 0 then 1 else 0)) % 256,
       ((b1 <<< 1) ^^^ (if b2 &&& 128 ≠ 0 then 1 else 0)) % 256,
       ((b2 <<< 1) ^^^ (if b3 &&& 128 ≠ 0 then 1 else 0)) % 256,
       ((b3 <<< 1) ^^^ (if b4 &&& 128 ≠ 0 then 1 else 0)) % 256,
       ((b4 <<< 1) ^^^ (if b5 &&& 128 ≠ 0 then 1 else 0)) % 256,
       ((b5 <<< 1) ^^^ (if b6 &&& 128 ≠ 0 then 1 else 0)) % 256,
       ((b6 <<< 1) ^^^ (if b7 &&& 128 ≠ 0 then 1 else 0)) % 256,
       ((b7 <<< 1) ^^^ (if b8 &&& 128 ≠ 0 then 1 else 0)) % 256,
       ((b8 <<< 1) ^^^ (if b9 &&& 128 ≠ 0 then 1 else 0)) % 256,
       ((b9 <<< 1) ^^^ (if b10 &&& 128 ≠ 0 then 1 else 0)) % 256,
       ((b10 <<< 1) ^^^ (if b11 &&& 128 ≠ 0 then 1 else 0)) % 256,
       ((b11 <<< 1) ^^^ (if b12 &&& 128 ≠ 0 then 1 else 0)) % 256,
       ((b12 <<< 1) ^^^ (if b13 &&& 128 ≠ 0 then 1 else 0)) % 256,
       ((b13 <<< 1) ^^^ (if b14 &&& 128 ≠ 0 then 1 else 0)) % 256,
       ((b14 <<< 1) ^^^ (if b15 &&& 128 ≠ 0 then 1 else 0)) % 256,
       ((b15 <<< 1) ^^^ (if b0 &&& 128 ≠ 0 then 135 else 0)) % 256] := by
  simp [mul2, List.mapIdx_cons, List.mapIdx_nil]

theorem mul_two_xor_one (b : Nat) : (b * 2) ^^^ 1 = b * 2 + 1 := by
  apply Nat.eq_of_testBit_eq
  intro i
  rw [Nat.testBit_xor]
  cases i with
  | zero =>
    simp only [Nat.testBit_zero]
    have h1 : b * 2 % 2 = 0 := by omega
    have h2 : (b * 2 + 1) % 2 = 1 := by omega
    simp [h1, h2]
  | succ i =>
    simp only [Nat.testBit_succ]
    have h1 : b * 2 / 2 = b := by omega
    have h2 : (b * 2 + 1) / 2 = b := by omega
    have h3 : (1 : Nat) / 2 = 0 := by omega
    rw [h1, h2, h3]
    simp

theorem and128_iff (b : Nat) (hb : b < 256) : (b &&& 128 ≠ 0) ↔ (128 ≤ b) := by
  have ht : Nat.testBit b 7 = decide (b / 128 % 2 = 1) := by
    rw [Nat.testBit_to_div_mod]
  rw [show (128 : Nat) = 2 ^ 7 by norm_num, Nat.and_two_pow, ht]
  by_cases hd : b / 128 % 2 = 1
  · rw [decide_eq_true hd]
    simp only [Bool.toNat_true, one_mul]
    norm_num
    omega
  · rw [decide_eq_false hd]
    simp only [Bool.toNat_false, zero_mul]
    norm_num
    omega

theorem ite_carry (b : Nat) (hb : b < 256) : (if b &&& 128 ≠ 0 then 1 else 0) = b / 128 := by
  by_cases hc : b &&& 128 ≠ 0
  · rw [if_pos hc]
    have := (and128_iff b hb).1 hc
    omega
  · rw [if_neg hc]
    have : ¬128 ≤ b := fun h => hc ((and128_iff b hb).2 h)
    omega

theorem xor_mod_256 (x c : Nat) (hc : c < 256) : (x ^^^ c) % 256 = (x % 256) ^^^ c := by
  have h8 : (256 : Nat) = 2 ^ 8 := by norm_num
  rw [h8, ← Nat.and_pow_two_sub_one_eq_mod (x ^^^ c) 8, Nat.and_xor_distrib_right,
    Nat.and_pow_two_sub_one_eq_mod x 8,
    Nat.and_pow_two_sub_one_of_lt_two_pow (show c < 2 ^ 8 by omega)]

theorem xor_div_256 (x c : Nat) (hc : c < 256) : (x ^^^ c) / 256 = x / 256 := by
  have h : ∀ y z : Nat, (y ^^^ z) / 256 = y / 256 ^^^ z / 256 := by
    intro y z
    have h2 : ∀ w : Nat, w / 256 = w / 2 / 2 / 2 / 2 / 2 / 2 / 2 / 2 := by
      intro w
      omega
    rw [h2 (y ^^^ z), h2 y, h2 z, Nat.xor_div_two, Nat.xor_div_two, Nat.xor_div_two,
      Nat.xor_div_two, Nat.xor_div_two, Nat.xor_div_two, Nat.xor_div_two, Nat.xor_div_two]
  rw [h, Nat.div_eq_of_lt hc, Nat.xor_zero]

theorem xor_split_low (t c : Nat) (hc : c < 256) :
    t ^^^ c = 256 * (t / 256) + ((t % 256) ^^^ c) := by
  conv_lhs => rw [← Nat.div_add_mod (t ^^^ c) 256]
  rw [xor_div_256 t c hc, xor_mod_256 t c hc]

theorem xor_le_one_add (b d : Nat) (hd : d ≤ 1) : (b * 2) ^^^ d = b * 2 + d := by
  interval_cases d
  · simp
  · exact mul_two_xor_one b


theorem byte_step (b c : Nat) (hb : b < 256) (hc : c < 256) :
    ((b <<< 1) ^^^ (if c &&& 128 ≠ 0 then 1 else 0)) % 256
      = b * 2 + c / 128 - 256 * (b / 128) := by
  rw [Nat.shiftLeft_eq, pow_one, ite_carry c hc, xor_le_one_add b (c / 128) (by omega)]
  omega

theorem last_step (a b : Nat) (ha : a < 256) (hb : b < 256) :
    ((b <<< 1) ^^^ (if a &&& 128 ≠ 0 then 135 else 0)) % 256
      = (b * 2 - 256 * (b / 128)) ^^^ (a / 128 * 135) := by
  rw [Nat.shiftLeft_eq, pow_one, if_congr (and128_iff a ha) rfl rfl]
  by_cases h : 128 ≤ a
  · rw [if_pos h, xor_mod_256 (b * 2) 135 (by omega),
      show a / 128 * 135 = 135 from by omega,
      show b * 2 % 256 = b * 2 - 256 * (b / 128) from by omega]
  · rw [if_neg h, show a / 128 * 135 = 0 from by omega, Nat.xor_zero, Nat.xor_zero,
      show b * 2 % 256 = b * 2 - 256 * (b / 128) from by omega]

theorem div128_char (b c : Nat) (hb : b < 256) (h : b / 128 = c) :
    128 * c ≤ b ∧ b < 128 * c + 128 ∧ c ≤ 1 := by omega

theorem mod_low_of_mod (t r : Nat) (h : t % 256 = r) : 256 * (t / 256) = t - r := by omega

theorem mod_two128_high (N : Nat) (hlt : N < 2 ^ 128) (hge : 2 ^ 127 ≤ N) :
    2 * N % 2 ^ 128 = 2 * N - 2 ^ 128 := by omega

theorem mod_two128_low (N : Nat) (hlt : N < 2 ^ 127) : 2 * N % 2 ^ 128 = 2 * N := by omega


theorem mul2_arith (b0 b1 b2 b3 b4 b5 b6 b7 b8 b9 b10 b11 b12 b13 b14 b15 : Nat) (h0 : b0 < 256) (h1 : b1 < 256) (h2 : b2 < 256) (h3 : b3 < 256) (h4 : b4 < 256) (h5 : b5 < 256) (h6 : b6 < 256) (h7 : b7 < 256) (h8 : b8 < 256) (h9 : b9 < 256) (h10 : b10 < 256) (h11 : b11 < 256) (h12 : b12 < 256) (h13 : b13 < 256) (h14 : b14 < 256) (h15 : b15 < 256) :
    mul2 [b0, b1, b2, b3, b4, b5, b6, b7, b8, b9, b10, b11, b12, b13, b14, b15] =
      [b0 * 2 + b1 / 128 - 256 * (b0 / 128),
       b1 * 2 + b2 / 128 - 256 * (b1 / 128),
       b2 * 2 + b3 / 128 - 256 * (b2 / 128),
       b3 * 2 + b4 / 128 - 256 * (b3 / 128),
       b4 * 2 + b5 / 128 - 256 * (b4 / 128),
       b5 * 2 + b6 / 128 - 256 * (b5 / 128),
       b6 * 2 + b7 / 128 - 256 * (b6 / 128),
       b7 * 2 + b8 / 128 - 256 * (b7 / 128),
       b8 * 2 + b9 / 128 - 256 * (b8 / 128),
       b9 * 2 + b10 / 128 - 256 * (b9 / 128),
       b10 * 2 + b11 / 128 - 256 * (b10 / 128),
       b11 * 2 + b12 / 128 - 256 * (b11 / 128),
       b12 * 2 + b13 / 128 - 256 * (b12 / 128),
       b13 * 2 + b14 / 128 - 256 * (b13 / 128),
       b14 * 2 + b15 / 128 - 256 * (b14 / 128),
       (b15 * 2 - 256 * (b15 / 128)) ^^^ (b0 / 128 * 135)] := by
  rw [mul2_explicit, byte_step b0 b1 h0 h1, byte_step b1 b2 h1 h2, byte_step b2 b3 h2 h3, byte_step b3 b4 h3 h4, byte_step b4 b5 h4 h5, byte_step b5 b6 h5 h6, byte_step b6 b7 h6 h7, byte_step b7 b8 h7 h8, byte_step b8 b9 h8 h9, byte_step b9 b10 h9 h10, byte_step b10 b11 h10 h11, byte_step b11 b12 h11 h12, byte_step b12 b13 h12 h13, byte_step b13 b14 h13 h14, byte_step b14 b15 h14 h15, last_step b0 b15 h0 h15]

theorem c6_sum (b0 b1 b2 b3 b4 b5 b6 b7 b8 b9 b10 b11 b12 b13 b14 b15 c0 c1 c2 c3 c4 c5 c6 c7 c8 c9 c10 c11 c12 c13 c14 c15 s0 s1 s2 s3 s4 s5 s6 s7 s8 s9 s10 s11 s12 s13 s14 s15 N : Nat) (h0 : b0 < 256) (h1 : b1 < 256) (h2 : b2 < 256) (h3 : b3 < 256) (h4 : b4 < 256) (h5 : b5 < 256) (h6 : b6 < 256) (h7 : b7 < 256) (h8 : b8 < 256) (h9 : b9 < 256) (h10 : b10 < 256) (h11 : b11 < 256) (h12 : b12 < 256) (h13 : b13 < 256) (h14 : b14 < 256) (h15 : b15 < 256) (hcc0 : 128 * c0 ≤ b0 ∧ b0 < 128 * c0 + 128 ∧ c0 ≤ 1) (hcc1 : 128 * c1 ≤ b1 ∧ b1 < 128 * c1 + 128 ∧ c1 ≤ 1) (hcc2 : 128 * c2 ≤ b2 ∧ b2 < 128 * c2 + 128 ∧ c2 ≤ 1) (hcc3 : 128 * c3 ≤ b3 ∧ b3 < 128 * c3 + 128 ∧ c3 ≤ 1) (hcc4 : 128 * c4 ≤ b4 ∧ b4 < 128 * c4 + 128 ∧ c4 ≤ 1) (hcc5 : 128 * c5 ≤ b5 ∧ b5 < 128 * c5 + 128 ∧ c5 ≤ 1) (hcc6 : 128 * c6 ≤ b6 ∧ b6 < 128 * c6 + 128 ∧ c6 ≤ 1) (hcc7 : 128 * c7 ≤ b7 ∧ b7 < 128 * c7 + 128 ∧ c7 ≤ 1) (hcc8 : 128 * c8 ≤ b8 ∧ b8 < 128 * c8 + 128 ∧ c8 ≤ 1) (hcc9 : 128 * c9 ≤ b9 ∧ b9 < 128 * c9 + 128 ∧ c9 ≤ 1) (hcc10 : 128 * c10 ≤ b10 ∧ b10 < 128 * c10 + 128 ∧ c10 ≤ 1) (hcc11 : 128 * c11 ≤ b11 ∧ b11 < 128 * c11 + 128 ∧ c11 ≤ 1) (hcc12 : 128 * c12 ≤ b12 ∧ b12 < 128 * c12 + 128 ∧ c12 ≤ 1) (hcc13 : 128 * c13 ≤ b13 ∧ b13 < 128 * c13 + 128 ∧ c13 ≤ 1) (hcc14 : 128 * c14 ≤ b14 ∧ b14 < 128 * c14 + 128 ∧ c14 ≤ 1) (hcc15 : 128 * c15 ≤ b15 ∧ b15 < 128 * c15 + 128 ∧ c15 ≤ 1) (hs0 : s0 = b0 * 2 + c1 - 256 * c0) (hs1 : s1 = b1 * 2 + c2 - 256 * c1) (hs2 : s2 = b2 * 2 + c3 - 256 * c2) (hs3 : s3 = b3 * 2 + c4 - 256 * c3) (hs4 : s4 = b4 * 2 + c5 - 256 * c4) (hs5 : s5 = b5 * 2 + c6 - 256 * c5) (hs6 : s6 = b6 * 2 + c7 - 256 * c6) (hs7 : s7 = b7 * 2 + c8 - 256 * c7) (hs8 : s8 = b8 * 2 + c9 - 256 * c8) (hs9 : s9 = b9 * 2 + c10 - 256 * c9) (hs10 : s10 = b10 * 2 + c11 - 256 * c10) (hs11 : s11 = b11 * 2 + c12 - 256 * c11) (hs12 : s12 = b12 * 2 + c13 - 256 * c12) (hs13 : s13 = b13 * 2 + c14 - 256 * c13) (hs14 : s14 = b14 * 2 + c15 - 256 * c14) (hs15 : s15 = b15 * 2 - 256 * c15)
    (hNf : b0 * 1329227995784915872903807060280344576 + b1 * 5192296858534827628530496329220096 + b2 * 20282409603651670423947251286016 + b3 * 79228162514264337593543950336 + b4 * 309485009821345068724781056 + b5 * 1208925819614629174706176 + b6 * 4722366482869645213696 + b7 * 18446744073709551616 + b8 * 72057594037927936 + b9 * 281474976710656 + b10 * 1099511627776 + b11 * 4294967296 + b12 * 16777216 + b13 * 65536 + b14 * 256 + b15 * 1 = N) :
    s0 * 1329227995784915872903807060280344576 + s1 * 5192296858534827628530496329220096 + s2 * 20282409603651670423947251286016 + s3 * 79228162514264337593543950336 + s4 * 309485009821345068724781056 + s5 * 1208925819614629174706176 + s6 * 4722366482869645213696 + s7 * 18446744073709551616 + s8 * 72057594037927936 + s9 * 281474976710656 + s10 * 1099511627776 + s11 * 4294967296 + s12 * 16777216 + s13 * 65536 + s14 * 256 + s15 * 1 = 2 * N - c0 * 2 ^ 128 := by
  omega

theorem msb_of_c0_one (b0 b1 b2 b3 b4 b5 b6 b7 b8 b9 b10 b11 b12 b13 b14 b15 c0 N : Nat) (hNf : b0 * 1329227995784915872903807060280344576 + b1 * 5192296858534827628530496329220096 + b2 * 20282409603651670423947251286016 + b3 * 79228162514264337593543950336 + b4 * 309485009821345068724781056 + b5 * 1208925819614629174706176 + b6 * 4722366482869645213696 + b7 * 18446744073709551616 + b8 * 72057594037927936 + b9 * 281474976710656 + b10 * 1099511627776 + b11 * 4294967296 + b12 * 16777216 + b13 * 65536 + b14 * 256 + b15 * 1 = N)
    (hcc0 : 128 * c0 ≤ b0 ∧ b0 < 128 * c0 + 128 ∧ c0 ≤ 1) (hc0 : c0 = 1) :
    2 ^ 127 ≤ N := by
  omega

theorem not_msb_of_c0_zero (b0 b1 b2 b3 b4 b5 b6 b7 b8 b9 b10 b11 b12 b13 b14 b15 c0 N : Nat) (h0 : b0 < 256) (h1 : b1 < 256) (h2 : b2 < 256) (h3 : b3 < 256) (h4 : b4 < 256) (h5 : b5 < 256) (h6 : b6 < 256) (h7 : b7 < 256) (h8 : b8 < 256) (h9 : b9 < 256) (h10 : b10 < 256) (h11 : b11 < 256) (h12 : b12 < 256) (h13 : b13 < 256) (h14 : b14 < 256) (h15 : b15 < 256) (hNf : b0 * 1329227995784915872903807060280344576 + b1 * 5192296858534827628530496329220096 + b2 * 20282409603651670423947251286016 + b3 * 79228162514264337593543950336 + b4 * 309485009821345068724781056 + b5 * 1208925819614629174706176 + b6 * 4722366482869645213696 + b7 * 18446744073709551616 + b8 * 72057594037927936 + b9 * 281474976710656 + b10 * 1099511627776 + b11 * 4294967296 + b12 * 16777216 + b13 * 65536 + b14 * 256 + b15 * 1 = N)
    (hcc0 : 128 * c0 ≤ b0 ∧ b0 < 128 * c0 + 128 ∧ c0 ≤ 1) (hc0 : c0 = 0) :
    ¬ 2 ^ 127 ≤ N := by
  omega

theorem lt_two128 (b0 b1 b2 b3 b4 b5 b6 b7 b8 b9 b10 b11 b12 b13 b14 b15 N : Nat) (h0 : b0 < 256) (h1 : b1 < 256) (h2 : b2 < 256) (h3 : b3 < 256) (h4 : b4 < 256) (h5 : b5 < 256) (h6 : b6 < 256) (h7 : b7 < 256) (h8 : b8 < 256) (h9 : b9 < 256) (h10 : b10 < 256) (h11 : b11 < 256) (h12 : b12 < 256) (h13 : b13 < 256) (h14 : b14 < 256) (h15 : b15 < 256) (hNf : b0 * 1329227995784915872903807060280344576 + b1 * 5192296858534827628530496329220096 + b2 * 20282409603651670423947251286016 + b3 * 79228162514264337593543950336 + b4 * 309485009821345068724781056 + b5 * 1208925819614629174706176 + b6 * 4722366482869645213696 + b7 * 18446744073709551616 + b8 * 72057594037927936 + b9 * 281474976710656 + b10 * 1099511627776 + b11 * 4294967296 + b12 * 16777216 + b13 * 65536 + b14 * 256 + b15 * 1 = N) : N < 2 ^ 128 := by
  omega

theorem mod256_eq_last (b0 b1 b2 b3 b4 b5 b6 b7 b8 b9 b10 b11 b12 b13 b14 b15 N : Nat) (h15 : b15 < 256) (hNf : b0 * 1329227995784915872903807060280344576 + b1 * 5192296858534827628530496329220096 + b2 * 20282409603651670423947251286016 + b3 * 79228162514264337593543950336 + b4 * 309485009821345068724781056 + b5 * 1208925819614629174706176 + b6 * 4722366482869645213696 + b7 * 18446744073709551616 + b8 * 72057594037927936 + b9 * 281474976710656 + b10 * 1099511627776 + b11 * 4294967296 + b12 * 16777216 + b13 * 65536 + b14 * 256 + b15 * 1 = N) :
    N % 256 = b15 := by
  omega

theorem high_sub_mod256 (N b c s : Nat) (hN256 : N % 256 = b) (hb : b < 256)
    (hcc : 128 * c ≤ b ∧ b < 128 * c + 128 ∧ c ≤ 1) (hs : b * 2 - 256 * c = s)
    (hlt : N < 2 ^ 128) (hge : 2 ^ 127 ≤ N) :
    (2 * N - 2 ^ 128) % 256 = s := by
  omega

set_option maxHeartbeats 2000000 in
theorem c6_main (l : List Nat) (hlen : l.length = 16) (hb : ∀ b ∈ l, b < 256) :
    beToNat (mul2 l) =
      ((2 * beToNat l) % 2 ^ 128) ^^^ (if 2 ^ 127 ≤ beToNat l then 0x87 else 0) := by
  rcases l with _ | ⟨b0, l⟩; · simp at hlen
  rcases l with _ | ⟨b1, l⟩; · simp at hlen
  rcases l with _ | ⟨b2, l⟩; · simp at hlen
  rcases l with _ | ⟨b3, l⟩; · simp at hlen
  rcases l with _ | ⟨b4, l⟩; · simp at hlen
  rcases l with _ | ⟨b5, l⟩; · simp at hlen
  rcases l with _ | ⟨b6, l⟩; · simp at hlen
  rcases l with _ | ⟨b7, l⟩; · simp at hlen
  rcases l with _ | ⟨b8, l⟩; · simp at hlen
  rcases l with _ | ⟨b9, l⟩; · simp at hlen
  rcases l with _ | ⟨b10, l⟩; · simp at hlen
  rcases l with _ | ⟨b11, l⟩; · simp at hlen
  rcases l with _ | ⟨b12, l⟩; · simp at hlen
  rcases l with _ | ⟨b13, l⟩; · simp at hlen
  rcases l with _ | ⟨b14, l⟩; · simp at hlen
  rcases l with _ | ⟨b15, l⟩; · simp at hlen
  have hnil : l = [] := by
    cases l with
    | nil => rfl
    | cons x l => simp at hlen
  subst hnil
  have h0 : b0 < 256 := hb _ (by simp)
  have h1 : b1 < 256 := hb _ (by simp)
  have h2 : b2 < 256 := hb _ (by simp)
  have h3 : b3 < 256 := hb _ (by simp)
  have h4 : b4 < 256 := hb _ (by simp)
  have h5 : b5 < 256 := hb _ (by simp)
  have h6 : b6 < 256 := hb _ (by simp)
  have h7 : b7 < 256 := hb _ (by simp)
  have h8 : b8 < 256 := hb _ (by simp)
  have h9 : b9 < 256 := hb _ (by simp)
  have h10 : b10 < 256 := hb _ (by simp)
  have h11 : b11 < 256 := hb _ (by simp)
  have h12 : b12 < 256 := hb _ (by simp)
  have h13 : b13 < 256 := hb _ (by simp)
  have h14 : b14 < 256 := hb _ (by simp)
  have h15 : b15 < 256 := hb _ (by simp)
  rw [mul2_arith b0 b1 b2 b3 b4 b5 b6 b7 b8 b9 b10 b11 b12 b13 b14 b15 h0 h1 h2 h3 h4 h5 h6 h7 h8 h9 h10 h11 h12 h13 h14 h15]
  generalize hN : beToNat [b0, b1, b2, b3, b4, b5, b6, b7, b8, b9, b10, b11, b12, b13, b14, b15] = N
  simp only [beToNat, List.foldl]
  have hNf : b0 * 1329227995784915872903807060280344576 + b1 * 5192296858534827628530496329220096 + b2 * 20282409603651670423947251286016 + b3 * 79228162514264337593543950336 + b4 * 309485009821345068724781056 + b5 * 1208925819614629174706176 + b6 * 4722366482869645213696 + b7 * 18446744073709551616 + b8 * 72057594037927936 + b9 * 281474976710656 + b10 * 1099511627776 + b11 * 4294967296 + b12 * 16777216 + b13 * 65536 + b14 * 256 + b15 * 1 = N := by
    rw [← hN]
    simp only [beToNat, List.foldl]
    ring
  clear hN hb hlen
  generalize hgc0 : b0 / 128 = c0
  generalize hgc1 : b1 / 128 = c1
  generalize hgc2 : b2 / 128 = c2
  generalize hgc3 : b3 / 128 = c3
  generalize hgc4 : b4 / 128 = c4
  generalize hgc5 : b5 / 128 = c5
  generalize hgc6 : b6 / 128 = c6
  generalize hgc7 : b7 / 128 = c7
  generalize hgc8 : b8 / 128 = c8
  generalize hgc9 : b9 / 128 = c9
  generalize hgc10 : b10 / 128 = c10
  generalize hgc11 : b11 / 128 = c11
  generalize hgc12 : b12 / 128 = c12
  generalize hgc13 : b13 / 128 = c13
  generalize hgc14 : b14 / 128 = c14
  generalize hgc15 : b15 / 128 = c15
  have hcc0 := div128_char b0 c0 h0 hgc0
  have hcc1 := div128_char b1 c1 h1 hgc1
  have hcc2 := div128_char b2 c2 h2 hgc2
  have hcc3 := div128_char b3 c3 h3 hgc3
  have hcc4 := div128_char b4 c4 h4 hgc4
  have hcc5 := div128_char b5 c5 h5 hgc5
  have hcc6 := div128_char b6 c6 h6 hgc6
  have hcc7 := div128_char b7 c7 h7 hgc7
  have hcc8 := div128_char b8 c8 h8 hgc8
  have hcc9 := div128_char b9 c9 h9 hgc9
  have hcc10 := div128_char b10 c10 h10 hgc10
  have hcc11 := div128_char b11 c11 h11 hgc11
  have hcc12 := div128_char b12 c12 h12 hgc12
  have hcc13 := div128_char b13 c13 h13 hgc13
  have hcc14 := div128_char b14 c14 h14 hgc14
  have hcc15 := div128_char b15 c15 h15 hgc15
  generalize hgs0 : b0 * 2 + c1 - 256 * c0 = s0
  generalize hgs1 : b1 * 2 + c2 - 256 * c1 = s1
  generalize hgs2 : b2 * 2 + c3 - 256 * c2 = s2
  generalize hgs3 : b3 * 2 + c4 - 256 * c3 = s3
  generalize hgs4 : b4 * 2 + c5 - 256 * c4 = s4
  generalize hgs5 : b5 * 2 + c6 - 256 * c5 = s5
  generalize hgs6 : b6 * 2 + c7 - 256 * c6 = s6
  generalize hgs7 : b7 * 2 + c8 - 256 * c7 = s7
  generalize hgs8 : b8 * 2 + c9 - 256 * c8 = s8
  generalize hgs9 : b9 * 2 + c10 - 256 * c9 = s9
  generalize hgs10 : b10 * 2 + c11 - 256 * c10 = s10
  generalize hgs11 : b11 * 2 + c12 - 256 * c11 = s11
  generalize hgs12 : b12 * 2 + c13 - 256 * c12 = s12
  generalize hgs13 : b13 * 2 + c14 - 256 * c13 = s13
  generalize hgs14 : b14 * 2 + c15 - 256 * c14 = s14
  generalize hgs15 : b15 * 2 - 256 * c15 = s15
  have hsum := c6_sum b0 b1 b2 b3 b4 b5 b6 b7 b8 b9 b10 b11 b12 b13 b14 b15 c0 c1 c2 c3 c4 c5 c6 c7 c8 c9 c10 c11 c12 c13 c14 c15 s0 s1 s2 s3 s4 s5 s6 s7 s8 s9 s10 s11 s12 s13 s14 s15 N h0 h1 h2 h3 h4 h5 h6 h7 h8 h9 h10 h11 h12 h13 h14 h15 hcc0 hcc1 hcc2 hcc3 hcc4 hcc5 hcc6 hcc7 hcc8 hcc9 hcc10 hcc11 hcc12 hcc13 hcc14 hcc15 hgs0.symm hgs1.symm hgs2.symm hgs3.symm hgs4.symm hgs5.symm hgs6.symm hgs7.symm hgs8.symm hgs9.symm hgs10.symm hgs11.symm hgs12.symm hgs13.symm hgs14.symm hgs15.symm hNf
  have hNlt := lt_two128 b0 b1 b2 b3 b4 b5 b6 b7 b8 b9 b10 b11 b12 b13 b14 b15 N h0 h1 h2 h3 h4 h5 h6 h7 h8 h9 h10 h11 h12 h13 h14 h15 hNf
  have hN256 := mod256_eq_last b0 b1 b2 b3 b4 b5 b6 b7 b8 b9 b10 b11 b12 b13 b14 b15 N h15 hNf
  by_cases hc0v : c0 = 1
  · rw [show c0 * 135 = 135 from by simp [hc0v]]
    have hmsb := msb_of_c0_one b0 b1 b2 b3 b4 b5 b6 b7 b8 b9 b10 b11 b12 b13 b14 b15 c0 N hNf hcc0 hc0v
    rw [if_pos hmsb]
    rw [xor_split_low (2 * N % 2 ^ 128) 135 (by norm_num)]
    rw [mod_two128_high N hNlt hmsb]
    have hms := high_sub_mod256 N b15 c15 s15 hN256 h15 hcc15 hgs15 hNlt hmsb
    rw [hms]
    rw [mod_low_of_mod (2 * N - 2 ^ 128) s15 hms]
    generalize s15 ^^^ 135 = X
    omega
  · have hc0z : c0 = 0 := by omega
    rw [show c0 * 135 = 0 from by simp [hc0z]]
    rw [Nat.xor_zero]
    have hnm := not_msb_of_c0_zero b0 b1 b2 b3 b4 b5 b6 b7 b8 b9 b10 b11 b12 b13 b14 b15 c0 N h0 h1 h2 h3 h4 h5 h6 h7 h8 h9 h10 h11 h12 h13 h14 h15 hNf hcc0 hc0z
    rw [if_neg hnm, Nat.xor_zero]
    rw [mod_two128_low N (by omega)]
    omega

theorem mul2_last (l : List Nat) (hlen : l.length = 16) (hb : ∀ b ∈ l, b < 256)
    (hmsb : 128 ≤ l.getD 0 0) :
    (mul2 l).getD 15 0 = ((2 * l.getD 15 0) % 256) ^^^ 0x87 := by
  rcases l with _ | ⟨b0, l⟩; · simp at hlen
  rcases l with _ | ⟨b1, l⟩; · simp at hlen
  rcases l with _ | ⟨b2, l⟩; · simp at hlen
  rcases l with _ | ⟨b3, l⟩; · simp at hlen
  rcases l with _ | ⟨b4, l⟩; · simp at hlen
  rcases l with _ | ⟨b5, l⟩; · simp at hlen
  rcases l with _ | ⟨b6, l⟩; · simp at hlen
  rcases l with _ | ⟨b7, l⟩; · simp at hlen
  rcases l with _ | ⟨b8, l⟩; · simp at hlen
  rcases l with _ | ⟨b9, l⟩; · simp at hlen
  rcases l with _ | ⟨b10, l⟩; · simp at hlen
  rcases l with _ | ⟨b11, l⟩; · simp at hlen
  rcases l with _ | ⟨b12, l⟩; · simp at hlen
  rcases l with _ | ⟨b13, l⟩; · simp at hlen
  rcases l with _ | ⟨b14, l⟩; · simp at hlen
  rcases l with _ | ⟨b15, l⟩; · simp at hlen
  have hnil : l = [] := by
    cases l with
    | nil => rfl
    | cons x l => simp at hlen
  subst hnil
  have h0 : b0 < 256 := hb _ (by simp)
  have h1 : b1 < 256 := hb _ (by simp)
  have h2 : b2 < 256 := hb _ (by simp)
  have h3 : b3 < 256 := hb _ (by simp)
  have h4 : b4 < 256 := hb _ (by simp)
  have h5 : b5 < 256 := hb _ (by simp)
  have h6 : b6 < 256 := hb _ (by simp)
  have h7 : b7 < 256 := hb _ (by simp)
  have h8 : b8 < 256 := hb _ (by simp)
  have h9 : b9 < 256 := hb _ (by simp)
  have h10 : b10 < 256 := hb _ (by simp)
  have h11 : b11 < 256 := hb _ (by simp)
  have h12 : b12 < 256 := hb _ (by simp)
  have h13 : b13 < 256 := hb _ (by simp)
  have h14 : b14 < 256 := hb _ (by simp)
  have h15 : b15 < 256 := hb _ (by simp)
  simp only [List.getD_cons_zero] at hmsb
  rw [mul2_arith b0 b1 b2 b3 b4 b5 b6 b7 b8 b9 b10 b11 b12 b13 b14 b15 h0 h1 h2 h3 h4 h5 h6 h7
    h8 h9 h10 h11 h12 h13 h14 h15]
  simp only [List.getD_cons_succ, List.getD_cons_zero]
  rw [show b0 / 128 * 135 = 135 from by omega,
    show b15 * 2 - 256 * (b15 / 128) = 2 * b15 % 256 from by omega]

/-- Claim C6: `mul2` realizes GF(2^128) doubling on a 16-byte block: read
as a big-endian integer, the result is the 128-bit left shift (top bit
dropped, zero entering at the bottom) XORed with 0x87 exactly when the
dropped bit was 1; doubling the all-zero block gives the all-zero block,
and when the top bit of the first byte is set the last output byte is the
shifted byte XOR 0x87. -/
theorem claim6_mul2_is_gf128_doubling (l : List Nat) (hlen : l.length = 16)
    (hb : ∀ b ∈ l, b < 256) :
    beToNat (mul2 l) = ((2 * beToNat l) % 2 ^ 128) ^^^ (if 2 ^ 127 ≤ beToNat l then 0x87 else 0) ∧
    mul2 zeroBlock = zeroBlock ∧
    (128 ≤ l.getD 0 0 → (mul2 l).getD 15 0 = ((2 * l.getD 15 0) % 256) ^^^ 0x87) := by
  exact ⟨c6_main l hlen hb, by decide, mul2_last l hlen hb⟩

theorem claim6_witness :
    beToNat (mul2 [128, 0, 0, 0, 0, 0, 0, 0, 0, 0, 0, 0, 0, 0, 0, 1]) =
      ((2 * beToNat [128, 0, 0, 0, 0, 0, 0, 0, 0, 0, 0, 0, 0, 0, 0, 1]) % 2 ^ 128) ^^^ 0x87 ∧
    (mul2 [128, 0, 0, 0, 0, 0, 0, 0, 0, 0, 0, 0, 0, 0, 0, 1]).getD 15 0 =
      ((2 * ([128, 0, 0, 0, 0, 0, 0, 0, 0, 0, 0, 0, 0, 0, 0, 1] : List Nat).getD 15 0) % 256)
        ^^^ 0x87 := by
  have h := claim6_mul2_is_gf128_doubling [128, 0, 0, 0, 0, 0, 0, 0, 0, 0, 0, 0, 0, 0, 0, 1]
    (by decide) (by decide)
  refine ⟨?_, h.2.2 (by decide)⟩
  have h1 := h.1
  rwa [if_pos (by decide : (2 : Nat) ^ 127 ≤
    beToNat [128, 0, 0, 0, 0, 0, 0, 0, 0, 0, 0, 0, 0, 0, 0, 1])] at h1
